import Mathlib

/-!
Verification of the FAM-container, nested-state-buffer and serialization
layers of the rust-vmm kvm repository (kvm-bindings + kvm-ioctls), against
its natural-language specification.

The concrete data declared in the repository sources
(`src/kvm-bindings/src/arm64/fam_wrappers.rs`,
`src/kvm-bindings/src/x86_64/nested.rs`,
`src/kvm-bindings/src/riscv64/serialize.rs`) is translated directly.
The generic `FamStructWrapper` operations (from the external vmm-sys-util
crate) and the body of the `serde_impls!` macro are not part of the source
tree given; those operations are modelled from the specification and are
marked as such in their doc comments.
-/

/- ## Constants fixed in src/kvm-bindings/src/arm64/fam_wrappers.rs -/

/-- Maximum number of registers in a `kvm_reg_list`
(`const ARM64_REGS_MAX: usize = 500;`). -/
def ARM64_REGS_MAX : Nat := 500

/-- Maximum number of entries of a `kvm_irq_routing` table, the literal
`1024` passed to `generate_fam_struct_impl!` for `kvm_irq_routing`. -/
def KVM_IRQ_ROUTING_MAX : Nat := 1024

/- ## The two FAM structs instantiated in arm64/fam_wrappers.rs -/

/-- The `kvm_reg_list` FAM struct: header field `n` (u64 element count) followed
by the flexible array `reg` of u64 register ids.  The `reg` list holds the
whole allocation, so `reg.length` is the allocated capacity
(`allocated_len`) and `n` is the header count. -/
structure kvm_reg_list where
  n : Nat
  reg : List Nat
deriving DecidableEq, Repr

/-- One `kvm_irq_routing_entry` (bindgen struct: `gsi`, `type`, `flags`, `pad`
u32 fields plus a 32-byte union `u`); the union is modelled by its byte
image. -/
structure kvm_irq_routing_entry where
  gsi : Nat
  type : Nat
  flags : Nat
  pad : Nat
  u : List Nat
deriving DecidableEq, Repr

/-- The all-zero `kvm_irq_routing_entry`, as produced by zeroed allocation. -/
def kvm_irq_routing_entry.zeroed : kvm_irq_routing_entry :=
  { gsi := 0, type := 0, flags := 0, pad := 0, u := List.replicate 32 0 }

/-- The `kvm_irq_routing` FAM struct: header fields `nr` (u32 element count)
and `flags` (u32), followed by the flexible array `entries`.  As above,
`entries.length` is the allocated capacity and `nr` the header count. -/
structure kvm_irq_routing where
  nr : Nat
  flags : Nat
  entries : List kvm_irq_routing_entry
deriving DecidableEq, Repr

/- ## FamStructWrapper operations, modelled from the spec -/

/-- Modelled from the spec: the capacity error returned by `FamStructWrapper`
construction/growth when the requested length exceeds the declared maximum
(spec 4.1: "`new(len)` succeeds only if `len <= MAX_COUNT`, else fails with
a capacity error"). -/
inductive FamError where
  | SizeLimitExceeded
deriving DecidableEq, Repr

namespace RegList

/-- Modelled from the spec: `FamStructWrapper::<kvm_reg_list>::new(len)`
(vmm-sys-util, not in the source tree): succeeds only if
`len <= MAX_COUNT`, else fails with a capacity error; allocates a zeroed
buffer sized for exactly `len` entries and sets the header count to
`len`. -/
def new (len : Nat) : Except FamError kvm_reg_list :=
  if len > ARM64_REGS_MAX then .error .SizeLimitExceeded
  else .ok { n := len, reg := List.replicate len 0 }

/-- Modelled from the spec: `as_slice()` re-derives the header count and
clamps it against the actually allocated capacity before constructing the
slice (spec 4.1), so the view is the first `min n allocated_len`
entries. -/
def as_slice (s : kvm_reg_list) : List Nat :=
  s.reg.take s.n

/-- Modelled from the spec: writing through `as_mut_slice()[i] = v`: a
bounds-checked in-place update of one visible entry. -/
def write_entry (s : kvm_reg_list) (i : Nat) (v : Nat) : kvm_reg_list :=
  { s with reg := s.reg.set i v }

end RegList

namespace KvmIrqRouting

/-- Modelled from the spec: `FamStructWrapper::<kvm_irq_routing>::new(len)`,
exactly as `RegList.new` but with maximum `KVM_IRQ_ROUTING_MAX` and zeroed
`kvm_irq_routing_entry` elements. -/
def new (len : Nat) : Except FamError kvm_irq_routing :=
  if len > KVM_IRQ_ROUTING_MAX then .error .SizeLimitExceeded
  else .ok { nr := len, flags := 0,
             entries := List.replicate len kvm_irq_routing_entry.zeroed }

/-- Modelled from the spec: `as_slice()` for the IRQ routing container,
count re-derived and clamped against the allocated capacity. -/
def as_slice (s : kvm_irq_routing) : List kvm_irq_routing_entry :=
  s.entries.take s.nr

/-- Modelled from the spec: writing one visible entry in place. -/
def write_entry (s : kvm_irq_routing) (i : Nat) (v : kvm_irq_routing_entry) :
    kvm_irq_routing :=
  { s with entries := s.entries.set i v }

end KvmIrqRouting

/- ## Claim C1 -/

/-- C1: for every `n <= MAX_COUNT` (500 for the register-list container, 1024
for the IRQ-routing container), `new(n)` succeeds and `as_slice()` on the
result has exactly `n` entries. -/
theorem famWrapper_new_le_max_succeeds (n m : Nat)
    (hn : n ≤ ARM64_REGS_MAX) (hm : m ≤ KVM_IRQ_ROUTING_MAX) :
    (∃ s, RegList.new n = .ok s ∧ (RegList.as_slice s).length = n) ∧
    (∃ t, KvmIrqRouting.new m = .ok t ∧
      (KvmIrqRouting.as_slice t).length = m) := by
  constructor
  · refine ⟨{ n := n, reg := List.replicate n 0 }, ?_, ?_⟩
    · simp [RegList.new, Nat.not_lt_of_le hn]
    · simp [RegList.as_slice]
  · refine ⟨{ nr := m, flags := 0,
              entries := List.replicate m kvm_irq_routing_entry.zeroed },
            ?_, ?_⟩
    · simp [KvmIrqRouting.new, Nat.not_lt_of_le hm]
    · simp [KvmIrqRouting.as_slice]

/-- Witness for C1 at concrete sizes 500 and 1024. -/
theorem famWrapper_new_le_max_succeeds_witness :
    (∃ s, RegList.new 500 = .ok s ∧ (RegList.as_slice s).length = 500) ∧
    (∃ t, KvmIrqRouting.new 1024 = .ok t ∧
      (KvmIrqRouting.as_slice t).length = 1024) :=
  famWrapper_new_le_max_succeeds 500 1024 (by decide) (by decide)

/- ## Claim C2 -/

/-- C2: for every `n > MAX_COUNT`, `new(n)` fails with a capacity error; in
particular requesting capacity 501 against the register-list maximum of 500
yields the capacity error. -/
theorem famWrapper_new_gt_max_fails (n m : Nat)
    (hn : n > ARM64_REGS_MAX) (hm : m > KVM_IRQ_ROUTING_MAX) :
    RegList.new n = .error .SizeLimitExceeded ∧
    KvmIrqRouting.new m = .error .SizeLimitExceeded ∧
    RegList.new 501 = .error .SizeLimitExceeded := by
  refine ⟨?_, ?_, ?_⟩
  · simp [RegList.new, hn]
  · simp [KvmIrqRouting.new, hm]
  · rfl

/-- Witness for C2 at concrete sizes 501 and 1025. -/
theorem famWrapper_new_gt_max_fails_witness :
    RegList.new 501 = .error .SizeLimitExceeded ∧
    KvmIrqRouting.new 1025 = .error .SizeLimitExceeded ∧
    RegList.new 501 = .error .SizeLimitExceeded :=
  famWrapper_new_gt_max_fails 501 1025 (by decide) (by decide)

/- ## Reachable container states (spec sections 2, 6: data flow and the
   header-mutation contract of the external privileged call) -/

/-- Modelled from the spec: the states of a register-list container reachable
through the public interface.  A container starts from a successful
`new`; the owner may write visible entries through `as_mut_slice`; the
external privileged call may overwrite the header count and the entries in
place, trusted not to write beyond the allocated bounds (comments in
`src/src/ioctls/system.rs`: "The kernel is trusted not to write beyond the
bounds of the memory allocated for the struct"); growth reallocates to a
capacity at least the current one and at most the declared maximum. -/
inductive RegList.Reachable : kvm_reg_list → Prop where
  | new (len : Nat) (s : kvm_reg_list) (h : RegList.new len = .ok s) :
      RegList.Reachable s
  | write (s : kvm_reg_list) (i v : Nat) (h : RegList.Reachable s)
      (hi : i < (RegList.as_slice s).length) :
      RegList.Reachable (RegList.write_entry s i v)
  | kernel (s : kvm_reg_list) (c : Nat) (e : List Nat)
      (h : RegList.Reachable s) (hlen : e.length = s.reg.length)
      (hc : c ≤ s.reg.length) : RegList.Reachable { n := c, reg := e }
  | grow (s : kvm_reg_list) (cap : Nat) (h : RegList.Reachable s)
      (hcap : s.reg.length ≤ cap) (hmax : cap ≤ ARM64_REGS_MAX) :
      RegList.Reachable
        { s with reg := s.reg ++ List.replicate (cap - s.reg.length) 0 }

/-- Modelled from the spec: reachable states of the IRQ-routing container,
with the same four transitions as `RegList.Reachable`. -/
inductive KvmIrqRouting.Reachable : kvm_irq_routing → Prop where
  | new (len : Nat) (s : kvm_irq_routing) (h : KvmIrqRouting.new len = .ok s) :
      KvmIrqRouting.Reachable s
  | write (s : kvm_irq_routing) (i : Nat) (v : kvm_irq_routing_entry)
      (h : KvmIrqRouting.Reachable s)
      (hi : i < (KvmIrqRouting.as_slice s).length) :
      KvmIrqRouting.Reachable (KvmIrqRouting.write_entry s i v)
  | kernel (s : kvm_irq_routing) (c fl : Nat) (e : List kvm_irq_routing_entry)
      (h : KvmIrqRouting.Reachable s) (hlen : e.length = s.entries.length)
      (hc : c ≤ s.entries.length) :
      KvmIrqRouting.Reachable { nr := c, flags := fl, entries := e }
  | grow (s : kvm_irq_routing) (cap : Nat) (h : KvmIrqRouting.Reachable s)
      (hcap : s.entries.length ≤ cap) (hmax : cap ≤ KVM_IRQ_ROUTING_MAX) :
      KvmIrqRouting.Reachable
        { s with entries := (s.entries ++ List.replicate (cap - s.entries.length) kvm_irq_routing_entry.zeroed) }

/-- Every reachable register-list state satisfies the container invariant:
the header count never exceeds the allocated capacity, and the allocated
capacity never exceeds the declared maximum. -/
theorem regList_reachable_valid (s : kvm_reg_list)
    (h : RegList.Reachable s) :
    s.n ≤ s.reg.length ∧ s.reg.length ≤ ARM64_REGS_MAX := by
  induction h with
  | new len s h =>
    unfold RegList.new at h
    split at h
    · exact absurd h (by simp)
    · next hlen =>
      obtain rfl : ({ n := len, reg := List.replicate len 0 } : kvm_reg_list)
          = s := by simpa using h
      simpa using Nat.le_of_not_lt hlen
  | write s i v h hi ih => simpa [RegList.write_entry] using ih
  | kernel s c e h hlen hc ih =>
    exact ⟨by simpa [hlen] using hc, by simpa [hlen] using ih.2⟩
  | grow s cap h hcap hmax ih =>
    obtain ⟨ih1, ih2⟩ := ih
    refine ⟨?_, ?_⟩ <;>
      · simp only [List.length_append, List.length_replicate]
        omega

/-- Every reachable IRQ-routing state satisfies the container invariant. -/
theorem irqRouting_reachable_valid (s : kvm_irq_routing)
    (h : KvmIrqRouting.Reachable s) :
    s.nr ≤ s.entries.length ∧ s.entries.length ≤ KVM_IRQ_ROUTING_MAX := by
  induction h with
  | new len s h =>
    unfold KvmIrqRouting.new at h
    split at h
    · exact absurd h (by simp)
    · next hlen =>
      injection h with h2
      subst h2
      exact ⟨by simp, by simpa using Nat.le_of_not_lt hlen⟩
  | write s i v h hi ih => simpa [KvmIrqRouting.write_entry] using ih
  | kernel s c fl e h hlen hc ih =>
    exact ⟨by simpa [hlen] using hc, by simpa [hlen] using ih.2⟩
  | grow s cap h hcap hmax ih =>
    obtain ⟨ih1, ih2⟩ := ih
    refine ⟨?_, ?_⟩ <;>
      · simp only [List.length_append, List.length_replicate]
        omega

/- ## Claim C3 -/

/-- C3: for every container reachable through the public interface,
`allocated_len >= count` and `count <= MAX_COUNT` hold, and the slice
exposed by `as_slice` has exactly `count` entries; moreover `as_slice`
clamps against the allocated capacity on every state whatsoever, so its
length never exceeds the allocation even after an external call has
overwritten the header count in place. -/
theorem famWrapper_reachable_invariants :
    (∀ s : kvm_reg_list, RegList.Reachable s →
      s.n ≤ s.reg.length ∧ s.n ≤ ARM64_REGS_MAX ∧
        (RegList.as_slice s).length = s.n) ∧
    (∀ s : kvm_reg_list, (RegList.as_slice s).length ≤ s.reg.length) ∧
    (∀ t : kvm_irq_routing, KvmIrqRouting.Reachable t →
      t.nr ≤ t.entries.length ∧ t.nr ≤ KVM_IRQ_ROUTING_MAX ∧
        (KvmIrqRouting.as_slice t).length = t.nr) ∧
    (∀ t : kvm_irq_routing,
      (KvmIrqRouting.as_slice t).length ≤ t.entries.length) := by
  refine ⟨fun s hs => ?_, fun s => ?_, fun t ht => ?_, fun t => ?_⟩
  · obtain ⟨h1, h2⟩ := regList_reachable_valid s hs
    exact ⟨h1, Nat.le_trans h1 h2, by simp [RegList.as_slice, h1]⟩
  · simp [RegList.as_slice]
  · obtain ⟨h1, h2⟩ := irqRouting_reachable_valid t ht
    exact ⟨h1, Nat.le_trans h1 h2, by simp [KvmIrqRouting.as_slice, h1]⟩
  · simp [KvmIrqRouting.as_slice]

/-- Witness for C3: the invariants evaluated on the concrete containers
produced by `new 3` for registers and `new 2` for IRQ routing. -/
theorem famWrapper_reachable_invariants_witness :
    (({ n := 3, reg := List.replicate 3 0 } : kvm_reg_list).n ≤
        ({ n := 3, reg := List.replicate 3 0 } : kvm_reg_list).reg.length ∧
      ({ n := 3, reg := List.replicate 3 0 } : kvm_reg_list).n ≤
        ARM64_REGS_MAX ∧
      (RegList.as_slice { n := 3, reg := List.replicate 3 0 }).length =
        ({ n := 3, reg := List.replicate 3 0 } : kvm_reg_list).n) ∧
    (({ nr := 2, flags := 0,
        entries := List.replicate 2 kvm_irq_routing_entry.zeroed } :
          kvm_irq_routing).nr ≤
        ({ nr := 2, flags := 0,
           entries := List.replicate 2 kvm_irq_routing_entry.zeroed } :
             kvm_irq_routing).entries.length ∧
      ({ nr := 2, flags := 0,
         entries := List.replicate 2 kvm_irq_routing_entry.zeroed } :
           kvm_irq_routing).nr ≤ KVM_IRQ_ROUTING_MAX ∧
      (KvmIrqRouting.as_slice
        { nr := 2, flags := 0,
          entries := List.replicate 2 kvm_irq_routing_entry.zeroed }).length =
        ({ nr := 2, flags := 0,
           entries := List.replicate 2 kvm_irq_routing_entry.zeroed } :
             kvm_irq_routing).nr) :=
  ⟨famWrapper_reachable_invariants.1 _ (RegList.Reachable.new 3 _ rfl),
   (famWrapper_reachable_invariants.2.2).1 _
     (KvmIrqRouting.Reachable.new 2 _ rfl)⟩

/- ## Equality and clone -/

/-- PartialEq of the inner `kvm_reg_list` struct, from the source
(fam_wrappers.rs lines 17-22): compares only the header count `n`; the
entries are compared by the wrapper. -/
def kvm_reg_list.hdrEq (a b : kvm_reg_list) : Prop := a.n = b.n

/-- PartialEq of the inner `kvm_irq_routing` struct, from the source
(fam_wrappers.rs lines 44-49): compares the header fields `nr` and
`flags`; the entries are compared by the wrapper. -/
def kvm_irq_routing.hdrEq (a b : kvm_irq_routing) : Prop :=
  a.nr = b.nr ∧ a.flags = b.flags

/-- Modelled from the spec: `FamStructWrapper`'s PartialEq combines the inner
struct's header comparison (the source comment says "No need to call
entries's eq, FamStructWrapper's PartialEq will do it for you") with
comparison of the exposed slices. -/
def RegList.famEq (a b : kvm_reg_list) : Prop :=
  kvm_reg_list.hdrEq a b ∧ RegList.as_slice a = RegList.as_slice b

/-- Modelled from the spec: wrapper equality for the IRQ-routing container. -/
def KvmIrqRouting.famEq (a b : kvm_irq_routing) : Prop :=
  kvm_irq_routing.hdrEq a b ∧
    KvmIrqRouting.as_slice a = KvmIrqRouting.as_slice b

/-- Two length-clamped prefixes agree exactly when the underlying lists agree
pointwise below the clamp. -/
theorem take_eq_iff_pointwise {α : Type} (m : Nat) (xs ys : List α)
    (hx : m ≤ xs.length) (hy : m ≤ ys.length) :
    xs.take m = ys.take m ↔ ∀ i, i < m → xs[i]? = ys[i]? := by
  constructor
  · intro h i hi
    have h1 : (xs.take m)[i]? = (ys.take m)[i]? := by rw [h]
    rw [List.getElem?_take, List.getElem?_take] at h1
    simpa [hi] using h1
  · intro h
    apply List.ext_getElem?
    intro i
    by_cases hi : i < m
    · rw [List.getElem?_take, List.getElem?_take]
      simp [hi, h i hi]
    · rw [List.getElem?_eq_none, List.getElem?_eq_none] <;>
        simp [List.length_take] <;> omega

/- ## Claim C6 -/

/-- C6: two containers compare equal exactly when their non-array header
fields match (`n` for the register list; `nr` and `flags` for the IRQ
routing table), their counts match, and their first `count` entries are
pairwise equal; entries in allocator slack beyond `count` play no role. -/
theorem famWrapper_eq_iff (a b : kvm_reg_list) (p q : kvm_irq_routing)
    (ha : a.n ≤ a.reg.length) (hb : b.n ≤ b.reg.length)
    (hp : p.nr ≤ p.entries.length) (hq : q.nr ≤ q.entries.length) :
    (RegList.famEq a b ↔
      (a.n = b.n ∧ ∀ i, i < a.n → a.reg[i]? = b.reg[i]?)) ∧
    (KvmIrqRouting.famEq p q ↔
      (p.nr = q.nr ∧ p.flags = q.flags ∧
        ∀ i, i < p.nr → p.entries[i]? = q.entries[i]?)) := by
  constructor
  · unfold RegList.famEq kvm_reg_list.hdrEq RegList.as_slice
    constructor
    · rintro ⟨hn, hs⟩
      rw [← hn] at hs
      exact ⟨hn, (take_eq_iff_pointwise a.n a.reg b.reg ha (by omega)).1 hs⟩
    · rintro ⟨hn, hpt⟩
      refine ⟨hn, ?_⟩
      rw [← hn]
      exact (take_eq_iff_pointwise a.n a.reg b.reg ha (by omega)).2 hpt
  · unfold KvmIrqRouting.famEq kvm_irq_routing.hdrEq KvmIrqRouting.as_slice
    constructor
    · rintro ⟨⟨hn, hf⟩, hs⟩
      rw [← hn] at hs
      exact ⟨hn, hf,
        (take_eq_iff_pointwise p.nr p.entries q.entries hp (by omega)).1 hs⟩
    · rintro ⟨hn, hf, hpt⟩
      refine ⟨⟨hn, hf⟩, ?_⟩
      rw [← hn]
      exact (take_eq_iff_pointwise p.nr p.entries q.entries hp (by omega)).2 hpt

/-- Witness for C6: containers built with different capacities (3 vs 5) but
equal count 2 and equal first two entries compare equal, exhibited through
the equivalence at concrete inputs. -/
theorem famWrapper_eq_iff_witness :
    (RegList.famEq { n := 2, reg := [8, 9, 0] }
        { n := 2, reg := [8, 9, 1, 2, 3] } ↔
      (({ n := 2, reg := [8, 9, 0] } : kvm_reg_list).n =
          ({ n := 2, reg := [8, 9, 1, 2, 3] } : kvm_reg_list).n ∧
        ∀ i, i < ({ n := 2, reg := [8, 9, 0] } : kvm_reg_list).n →
          ([8, 9, 0] : List Nat)[i]? = ([8, 9, 1, 2, 3] : List Nat)[i]?)) ∧
    (KvmIrqRouting.famEq
        { nr := 1, flags := 0,
          entries := [kvm_irq_routing_entry.zeroed] }
        { nr := 1, flags := 0,
          entries := [kvm_irq_routing_entry.zeroed,
                      kvm_irq_routing_entry.zeroed] } ↔
      (1 = 1 ∧ 0 = 0 ∧
        ∀ i, i < 1 →
          ([kvm_irq_routing_entry.zeroed] :
              List kvm_irq_routing_entry)[i]? =
            ([kvm_irq_routing_entry.zeroed,
              kvm_irq_routing_entry.zeroed] :
                List kvm_irq_routing_entry)[i]?)) :=
  famWrapper_eq_iff { n := 2, reg := [8, 9, 0] }
    { n := 2, reg := [8, 9, 1, 2, 3] }
    { nr := 1, flags := 0, entries := [kvm_irq_routing_entry.zeroed] }
    { nr := 1, flags := 0,
      entries := [kvm_irq_routing_entry.zeroed,
                  kvm_irq_routing_entry.zeroed] }
    (by decide) (by decide) (by decide) (by decide)

/- ## Claim C7 -/

/-- Modelled from the spec: `Clone` deep-copies the header and the first
`count` entries into a fresh allocation sized to the current count (spec 3
and 4.1: slack entries beyond `count` are not guaranteed preserved). -/
def RegList.clone (s : kvm_reg_list) : kvm_reg_list :=
  { n := s.n, reg := RegList.as_slice s }

/-- Modelled from the spec: clone of the IRQ-routing container. -/
def KvmIrqRouting.clone (s : kvm_irq_routing) : kvm_irq_routing :=
  { nr := s.nr, flags := s.flags, entries := KvmIrqRouting.as_slice s }

/-- C7: for every valid container `c`, `clone c == c`: the clone preserves the
header and the first `count` entries, and is equal to the original under
the container equality relation. -/
theorem famWrapper_clone_eq (c : kvm_reg_list) (t : kvm_irq_routing)
    (hc : c.n ≤ c.reg.length) (ht : t.nr ≤ t.entries.length) :
    ((RegList.clone c).n = c.n ∧
      RegList.as_slice (RegList.clone c) = RegList.as_slice c ∧
      RegList.famEq (RegList.clone c) c) ∧
    ((KvmIrqRouting.clone t).nr = t.nr ∧
      (KvmIrqRouting.clone t).flags = t.flags ∧
      KvmIrqRouting.as_slice (KvmIrqRouting.clone t) =
        KvmIrqRouting.as_slice t ∧
      KvmIrqRouting.famEq (KvmIrqRouting.clone t) t) := by
  have h1 : RegList.as_slice (RegList.clone c) = RegList.as_slice c := by
    simp [RegList.clone, RegList.as_slice, List.take_take]
  have h2 : KvmIrqRouting.as_slice (KvmIrqRouting.clone t) =
      KvmIrqRouting.as_slice t := by
    simp [KvmIrqRouting.clone, KvmIrqRouting.as_slice, List.take_take]
  exact ⟨⟨rfl, h1, ⟨rfl, h1⟩⟩, ⟨rfl, rfl, h2, ⟨⟨rfl, rfl⟩, h2⟩⟩⟩

/-- Witness for C7 on concrete valid containers. -/
theorem famWrapper_clone_eq_witness :
    ((RegList.clone { n := 1, reg := [4, 7] }).n =
        ({ n := 1, reg := [4, 7] } : kvm_reg_list).n ∧
      RegList.as_slice (RegList.clone { n := 1, reg := [4, 7] }) =
        RegList.as_slice { n := 1, reg := [4, 7] } ∧
      RegList.famEq (RegList.clone { n := 1, reg := [4, 7] })
        { n := 1, reg := [4, 7] }) ∧
    ((KvmIrqRouting.clone
        { nr := 1, flags := 2,
          entries := [kvm_irq_routing_entry.zeroed] }).nr =
        ({ nr := 1, flags := 2,
           entries := [kvm_irq_routing_entry.zeroed] } :
             kvm_irq_routing).nr ∧
      (KvmIrqRouting.clone
        { nr := 1, flags := 2,
          entries := [kvm_irq_routing_entry.zeroed] }).flags =
        ({ nr := 1, flags := 2,
           entries := [kvm_irq_routing_entry.zeroed] } :
             kvm_irq_routing).flags ∧
      KvmIrqRouting.as_slice
          (KvmIrqRouting.clone
            { nr := 1, flags := 2,
              entries := [kvm_irq_routing_entry.zeroed] }) =
        KvmIrqRouting.as_slice
          { nr := 1, flags := 2,
            entries := [kvm_irq_routing_entry.zeroed] } ∧
      KvmIrqRouting.famEq
        (KvmIrqRouting.clone
          { nr := 1, flags := 2,
            entries := [kvm_irq_routing_entry.zeroed] })
        { nr := 1, flags := 2,
          entries := [kvm_irq_routing_entry.zeroed] }) :=
  famWrapper_clone_eq { n := 1, reg := [4, 7] }
    { nr := 1, flags := 2, entries := [kvm_irq_routing_entry.zeroed] }
    (by decide) (by decide)

/- ## Claim C9: clone allocations are disjoint -/

/-- Modelled from the spec: containers are single-owner heap allocations
(spec 3 and 5).  To state allocation disjointness we model the address
space explicitly: a map from allocation handles to register-list states
together with a fresh-handle counter; handles below the counter are the
live allocations. -/
structure RegListStore where
  mem : Nat → kvm_reg_list
  next : Nat

/-- Modelled from the spec: `clone` deep-copies the container at handle `h`
into a fresh allocation and returns the new store with the fresh
handle. -/
def RegListStore.clone (σ : RegListStore) (h : Nat) :
    RegListStore × Nat :=
  ({ mem := fun a => if a = σ.next then RegList.clone (σ.mem h) else σ.mem a,
     next := σ.next + 1 }, σ.next)

/-- Modelled from the spec: `as_mut_slice()[i] = v` writes entry `i` of the
container at handle `h` in place, touching no other allocation. -/
def RegListStore.write (σ : RegListStore) (h i v : Nat) : RegListStore :=
  { σ with
    mem := fun a =>
      if a = h then RegList.write_entry (σ.mem a) i v else σ.mem a }

/-- C9: mutating the first entry of `clone c` never changes the corresponding
entry of `c`: the clone lives in a fresh allocation disjoint from every
live handle, so after writing `v` into the clone's first entry the
original container is byte-for-byte unchanged while the clone's exposed
first entry is `v`. -/
theorem famWrapper_clone_mutation_isolated (σ : RegListStore) (h v : Nat)
    (hh : h < σ.next) (hv : 0 < (σ.mem h).n)
    (hval : (σ.mem h).n ≤ (σ.mem h).reg.length) :
    ((σ.clone h).1.write (σ.clone h).2 0 v).mem h = σ.mem h ∧
    (RegList.as_slice
        (((σ.clone h).1.write (σ.clone h).2 0 v).mem (σ.clone h).2))[0]? =
      some v := by
  have hne : h ≠ σ.next := Nat.ne_of_lt hh
  constructor
  · simp [RegListStore.clone, RegListStore.write, hne]
  · have hlen : 0 < ((σ.mem h).reg.take (σ.mem h).n).length := by
      simp only [List.length_take]
      omega
    simp only [RegListStore.clone, RegListStore.write, RegList.write_entry,
      RegList.clone, RegList.as_slice, if_pos rfl]
    rw [List.getElem?_take]
    simp only [hv, if_pos]
    exact List.getElem?_set_self hlen

/-- Witness store for the mutation-isolation claim: one live container
holding a single entry 7. -/
def sampleRegStore : RegListStore :=
  { mem := fun _ => { n := 1, reg := [7] }, next := 1 }

/-- Witness for C9 on the sample store: cloning handle 0 and writing 5 into
the clone leaves the original untouched and puts 5 in the clone. -/
theorem famWrapper_clone_mutation_isolated_witness :
    ((sampleRegStore.clone 0).1.write (sampleRegStore.clone 0).2 0 5).mem 0 =
      sampleRegStore.mem 0 ∧
    (RegList.as_slice
        (((sampleRegStore.clone 0).1.write
          (sampleRegStore.clone 0).2 0 5).mem (sampleRegStore.clone 0).2))[0]? =
      some 5 :=
  famWrapper_clone_mutation_isolated sampleRegStore 0 5 (by decide)
    (by decide) (by decide)

/- ## KvmNestedStateBuffer (src/kvm-bindings/src/x86_64/nested.rs) -/

/-- Size in bytes of one VMX VMCS region.  The binding constant is outside the
given tree; its value is pinned by the nested.rs doc comment ("On Intel
VMX, the actual state requires `128 + 8192 == 8320` bytes", where the VMX
data union member holds two such regions). -/
def KVM_STATE_NESTED_VMX_VMCS_SIZE : Nat := 4096

/-- Size in bytes of the SVM VMCB region, pinned by the nested.rs doc comment
("on AMD SVM, the actual state requires `128 + 4096 == 4224` bytes"). -/
def KVM_STATE_NESTED_SVM_VMCB_SIZE : Nat := 4096

/-- Byte size of the `kvm_nested_state__data` union from nested.rs: the larger
of the VMX variant (`vmcs12` plus `shadow_vmcs12`) and the SVM variant
(`vmcb12`). -/
def kvm_nested_state_data_size : Nat :=
  max (2 * KVM_STATE_NESTED_VMX_VMCS_SIZE) KVM_STATE_NESTED_SVM_VMCB_SIZE

/-- Byte size of the `kvm_nested_state__bindgen_ty_1` header union (the
120-byte padded header union of the kernel's `kvm_nested_state`), pinned by
the 128-byte fixed part: 2 (`flags`) + 2 (`format`) + 4 (`size`) + 120. -/
def kvm_nested_state_hdr_size : Nat := 120

/-- The `KvmNestedStateBuffer` struct from nested.rs: `flags` and `format`
(u16), `size` (u32), the header union and the data union, the unions
modelled by their byte images. -/
structure KvmNestedStateBuffer where
  flags : Nat
  format : Nat
  size : Nat
  hdr : List Nat
  data : List Nat
deriving DecidableEq, Repr

/-- The value produced by `mem::zeroed()` for `KvmNestedStateBuffer`: every
field and every byte of both unions is zero. -/
def KvmNestedStateBuffer.zeroed : KvmNestedStateBuffer :=
  { flags := 0, format := 0, size := 0,
    hdr := List.replicate kvm_nested_state_hdr_size 0,
    data := List.replicate kvm_nested_state_data_size 0 }

/-- The value of `size_of::<KvmNestedStateBuffer>()` under the `repr(C)`
layout: the 8-byte fixed fields, the 120-byte header union and the 8192
byte data union, totalling 8320 (asserted by `test_layout` in
nested.rs). -/
def KvmNestedStateBuffer.byteSize : Nat :=
  2 + 2 + 4 + kvm_nested_state_hdr_size + kvm_nested_state_data_size

/-- The `KvmNestedStateBuffer::empty()` constructor from nested.rs: zero the
whole structure with `mem::zeroed()`, then set `size` to
`size_of::<Self>()`. -/
def KvmNestedStateBuffer.empty : KvmNestedStateBuffer :=
  { KvmNestedStateBuffer.zeroed with size := KvmNestedStateBuffer.byteSize }

/- ## Claim C4 -/

/-- C4: `KvmNestedStateBuffer::empty()` returns a buffer whose every field
other than `size` is zero (flags, format, all header bytes, all data
bytes), and whose `size` field equals the full static size of the type,
8320 bytes, not the size of any particular variant. -/
theorem nested_empty_zero_with_full_size :
    KvmNestedStateBuffer.empty.flags = 0 ∧
    KvmNestedStateBuffer.empty.format = 0 ∧
    (∀ b ∈ KvmNestedStateBuffer.empty.hdr, b = 0) ∧
    (∀ b ∈ KvmNestedStateBuffer.empty.data, b = 0) ∧
    KvmNestedStateBuffer.empty.size = 8320 ∧
    KvmNestedStateBuffer.byteSize = 8320 := by
  refine ⟨rfl, rfl, ?_, ?_, ?_, ?_⟩
  · intro b hb
    exact (List.eq_of_mem_replicate hb)
  · intro b hb
    exact (List.eq_of_mem_replicate hb)
  · norm_num [KvmNestedStateBuffer.empty, KvmNestedStateBuffer.zeroed,
      KvmNestedStateBuffer.byteSize, kvm_nested_state_hdr_size,
      kvm_nested_state_data_size, KVM_STATE_NESTED_VMX_VMCS_SIZE,
      KVM_STATE_NESTED_SVM_VMCB_SIZE]
  · norm_num [KvmNestedStateBuffer.byteSize, kvm_nested_state_hdr_size,
      kvm_nested_state_data_size, KVM_STATE_NESTED_VMX_VMCS_SIZE,
      KVM_STATE_NESTED_SVM_VMCB_SIZE]

/- ## Claim C10 -/

/-- The `Default` impl for `KvmNestedStateBuffer` from nested.rs: it delegates
to `empty()`. -/
def KvmNestedStateBuffer.default : KvmNestedStateBuffer :=
  KvmNestedStateBuffer.empty

/-- C10: `KvmNestedStateBuffer::default()` returns exactly the value of
`empty()`; in particular a default-constructed buffer is not the all-zero
value but already carries `size == 8320`. -/
theorem nested_default_eq_empty :
    KvmNestedStateBuffer.default = KvmNestedStateBuffer.empty ∧
    KvmNestedStateBuffer.default.size = 8320 ∧
    KvmNestedStateBuffer.default ≠ KvmNestedStateBuffer.zeroed := by
  refine ⟨rfl, ?_, ?_⟩
  · norm_num [KvmNestedStateBuffer.default, KvmNestedStateBuffer.empty,
      KvmNestedStateBuffer.zeroed, KvmNestedStateBuffer.byteSize,
      kvm_nested_state_hdr_size, kvm_nested_state_data_size,
      KVM_STATE_NESTED_VMX_VMCS_SIZE, KVM_STATE_NESTED_SVM_VMCB_SIZE]
  · intro hcontra
    have hsz : KvmNestedStateBuffer.default.size =
        KvmNestedStateBuffer.zeroed.size :=
      congrArg KvmNestedStateBuffer.size hcontra
    norm_num [KvmNestedStateBuffer.default, KvmNestedStateBuffer.empty,
      KvmNestedStateBuffer.zeroed, KvmNestedStateBuffer.byteSize,
      kvm_nested_state_hdr_size, kvm_nested_state_data_size,
      KVM_STATE_NESTED_VMX_VMCS_SIZE, KVM_STATE_NESTED_SVM_VMCB_SIZE] at hsz

/- ## Serialization adapter (src/kvm-bindings/src/riscv64/serialize.rs) -/

/-- Little-endian encoding of a value into `k` bytes, the in-memory image of
a `k`-byte unsigned field. -/
def natToLE : Nat → Nat → List Nat
  | 0, _ => []
  | k + 1, x => x % 256 :: natToLE k (x / 256)

/-- Little-endian decoding of a byte list back into a value. -/
def leToNat : List Nat → Nat
  | [] => 0
  | b :: bs => b + 256 * leToNat bs

/-- An encoded field occupies exactly its declared width. -/
theorem natToLE_length (k x : Nat) : (natToLE k x).length = k := by
  induction k generalizing x with
  | zero => simp [natToLE]
  | succ k ih => simp [natToLE, ih]

/-- Decoding inverts encoding on every representable field value. -/
theorem leToNat_natToLE (k x : Nat) (h : x < 256 ^ k) :
    leToNat (natToLE k x) = x := by
  induction k generalizing x with
  | zero =>
    have hx0 : x = 0 := by simpa using h
    simp [natToLE, leToNat, hx0]
  | succ k ih =>
    simp only [natToLE, leToNat]
    rw [ih (x / 256)
      (Nat.div_lt_of_lt_mul (by simpa [Nat.pow_succ, Nat.mul_comm] using h))]
    omega

/-- The `kvm_one_reg` binding (riscv64): two u64 fields `id` and `addr`. -/
structure kvm_one_reg where
  id : Nat
  addr : Nat
deriving DecidableEq, Repr

/-- Modelled from the spec: the `serde_impls!` serializer (whose body is not
in the given tree) emits the exact in-memory byte image of the structure
(spec 4.3 and 6: "a flat byte sequence whose length equals the exact
in-memory size of the instance"); for `kvm_one_reg` these are the 16
little-endian bytes of `id` then `addr`. -/
def kvm_one_reg.serialize (r : kvm_one_reg) : List Nat :=
  natToLE 8 r.id ++ natToLE 8 r.addr

/-- Modelled from the spec: deserialization validates the input length
against the structure size and rebuilds the structure from the bytes; a
length mismatch is a format error and no partial structure is produced
(`none`). -/
def kvm_one_reg.deserialize (bs : List Nat) : Option kvm_one_reg :=
  if bs.length = 16 then
    some { id := leToNat (bs.take 8), addr := leToNat (bs.drop 8) }
  else none

/-- Modelled from the spec: serializer for `kvm_irq_routing_entry`, a
structure with padding (`pad`) and a 32-byte union (`u`): the four u32
fields in little-endian followed by the raw union bytes. -/
def kvm_irq_routing_entry.serialize (e : kvm_irq_routing_entry) : List Nat :=
  natToLE 4 e.gsi ++ natToLE 4 e.type ++ natToLE 4 e.flags ++
    natToLE 4 e.pad ++ e.u

/-- Modelled from the spec: deserializer for `kvm_irq_routing_entry`; the
expected size is 48 bytes, and the union bytes are taken verbatim. -/
def kvm_irq_routing_entry.deserialize (bs : List Nat) :
    Option kvm_irq_routing_entry :=
  if bs.length = 48 then
    some { gsi := leToNat (bs.take 4),
           type := leToNat ((bs.drop 4).take 4),
           flags := leToNat ((bs.drop 8).take 4),
           pad := leToNat ((bs.drop 12).take 4),
           u := bs.drop 16 }
  else none

/-- Splitting a serialized stream after one encoded field recovers the field
image and the rest. -/
theorem take_append_of_length (k : Nat) (xs rest : List Nat)
    (h : xs.length = k) :
    (xs ++ rest).take k = xs ∧ (xs ++ rest).drop k = rest := by
  subst h
  exact ⟨List.take_left xs rest, List.drop_left xs rest⟩

/- ## Claim C5 -/

/-- C5: for every representable value of a serializable kernel-ABI structure,
serialize after deserialize after serialize is byte-identical to a single
serialize; shown both for the plain `kvm_one_reg` and for
`kvm_irq_routing_entry`, which contains padding and a union. -/
theorem serde_roundtrip_stable (r : kvm_one_reg) (e : kvm_irq_routing_entry)
    (hid : r.id < 2 ^ 64) (haddr : r.addr < 2 ^ 64)
    (hgsi : e.gsi < 2 ^ 32) (hty : e.type < 2 ^ 32)
    (hfl : e.flags < 2 ^ 32) (hpad : e.pad < 2 ^ 32)
    (hu : e.u.length = 32) :
    (kvm_one_reg.deserialize (kvm_one_reg.serialize r)).map
        kvm_one_reg.serialize = some (kvm_one_reg.serialize r) ∧
    (kvm_irq_routing_entry.deserialize
        (kvm_irq_routing_entry.serialize e)).map
        kvm_irq_routing_entry.serialize =
      some (kvm_irq_routing_entry.serialize e) := by
  have h64 : (2 : Nat) ^ 64 = 256 ^ 8 := by norm_num
  have h32 : (2 : Nat) ^ 32 = 256 ^ 4 := by norm_num
  constructor
  · have hds : kvm_one_reg.deserialize (kvm_one_reg.serialize r) = some r := by
      unfold kvm_one_reg.serialize kvm_one_reg.deserialize
      obtain ⟨ht, hd⟩ :=
        take_append_of_length 8 (natToLE 8 r.id) (natToLE 8 r.addr)
          (natToLE_length 8 r.id)
      rw [if_pos (by simp [natToLE_length])]
      rw [ht, hd, leToNat_natToLE 8 r.id (h64 ▸ hid),
        leToNat_natToLE 8 r.addr (h64 ▸ haddr)]
    rw [hds]
    rfl
  · have hds : kvm_irq_routing_entry.deserialize
        (kvm_irq_routing_entry.serialize e) = some e := by
      unfold kvm_irq_routing_entry.serialize kvm_irq_routing_entry.deserialize
      obtain ⟨ht4, hd4⟩ :=
        take_append_of_length 4 (natToLE 4 e.gsi)
          (natToLE 4 e.type ++ natToLE 4 e.flags ++ natToLE 4 e.pad ++ e.u)
          (natToLE_length 4 e.gsi)
      rw [if_pos (by simp [natToLE_length, hu])]
      rw [show natToLE 4 e.gsi ++ natToLE 4 e.type ++ natToLE 4 e.flags ++
            natToLE 4 e.pad ++ e.u =
          natToLE 4 e.gsi ++ (natToLE 4 e.type ++ (natToLE 4 e.flags ++
            (natToLE 4 e.pad ++ e.u))) by simp [List.append_assoc]]
      have hsplit1 := take_append_of_length 4 (natToLE 4 e.gsi)
        (natToLE 4 e.type ++ (natToLE 4 e.flags ++ (natToLE 4 e.pad ++ e.u)))
        (natToLE_length 4 e.gsi)
      have hdrop4 : (natToLE 4 e.gsi ++ (natToLE 4 e.type ++
          (natToLE 4 e.flags ++ (natToLE 4 e.pad ++ e.u)))).drop 4 =
          natToLE 4 e.type ++ (natToLE 4 e.flags ++ (natToLE 4 e.pad ++ e.u)) :=
        hsplit1.2
      have hdrop8 : (natToLE 4 e.gsi ++ (natToLE 4 e.type ++
          (natToLE 4 e.flags ++ (natToLE 4 e.pad ++ e.u)))).drop 8 =
          natToLE 4 e.flags ++ (natToLE 4 e.pad ++ e.u) := by
        rw [show (8 : Nat) = 4 + 4 by norm_num, ← List.drop_drop, hdrop4]
        exact (take_append_of_length 4 (natToLE 4 e.type)
          (natToLE 4 e.flags ++ (natToLE 4 e.pad ++ e.u))
          (natToLE_length 4 e.type)).2
      have hdrop12 : (natToLE 4 e.gsi ++ (natToLE 4 e.type ++
          (natToLE 4 e.flags ++ (natToLE 4 e.pad ++ e.u)))).drop 12 =
          natToLE 4 e.pad ++ e.u := by
        rw [show (12 : Nat) = 8 + 4 by norm_num, ← List.drop_drop, hdrop8]
        exact (take_append_of_length 4 (natToLE 4 e.flags)
          (natToLE 4 e.pad ++ e.u) (natToLE_length 4 e.flags)).2
      have hdrop16 : (natToLE 4 e.gsi ++ (natToLE 4 e.type ++
          (natToLE 4 e.flags ++ (natToLE 4 e.pad ++ e.u)))).drop 16 = e.u := by
        rw [show (16 : Nat) = 12 + 4 by norm_num, ← List.drop_drop, hdrop12]
        exact (take_append_of_length 4 (natToLE 4 e.pad) e.u
          (natToLE_length 4 e.pad)).2
      rw [hsplit1.1, hdrop4, hdrop8, hdrop12, hdrop16]
      rw [(take_append_of_length 4 (natToLE 4 e.type)
            (natToLE 4 e.flags ++ (natToLE 4 e.pad ++ e.u))
            (natToLE_length 4 e.type)).1,
          (take_append_of_length 4 (natToLE 4 e.flags)
            (natToLE 4 e.pad ++ e.u) (natToLE_length 4 e.flags)).1,
          (take_append_of_length 4 (natToLE 4 e.pad) e.u
            (natToLE_length 4 e.pad)).1]
      rw [leToNat_natToLE 4 e.gsi (h32 ▸ hgsi),
        leToNat_natToLE 4 e.type (h32 ▸ hty),
        leToNat_natToLE 4 e.flags (h32 ▸ hfl),
        leToNat_natToLE 4 e.pad (h32 ▸ hpad)]
    rw [hds]
    rfl

/-- Witness for C5 at concrete values, including a concrete 32-byte union
image. -/
theorem serde_roundtrip_stable_witness :
    (kvm_one_reg.deserialize
        (kvm_one_reg.serialize { id := 3, addr := 77 })).map
        kvm_one_reg.serialize =
      some (kvm_one_reg.serialize { id := 3, addr := 77 }) ∧
    (kvm_irq_routing_entry.deserialize
        (kvm_irq_routing_entry.serialize
          { gsi := 1, type := 2, flags := 3, pad := 0,
            u := List.replicate 32 9 })).map
        kvm_irq_routing_entry.serialize =
      some (kvm_irq_routing_entry.serialize
        { gsi := 1, type := 2, flags := 3, pad := 0,
          u := List.replicate 32 9 }) :=
  serde_roundtrip_stable { id := 3, addr := 77 }
    { gsi := 1, type := 2, flags := 3, pad := 0, u := List.replicate 32 9 }
    (by norm_num) (by norm_num) (by norm_num) (by norm_num) (by norm_num)
    (by norm_num) (by simp)

/- ## FAM-container serialization: the internal count field -/

/-- Modelled from the spec: serialization of the `kvm_irq_routing` FAM
container (listed in the `serde_impls!` invocation): the exact in-memory
image at serialization time, the header fields `nr` and `flags` (u32,
little-endian) followed by the `nr` live entries (spec 6: "header plus
live entries"), 8 + 48 * nr bytes in all. -/
def kvm_irq_routing.serialize (s : kvm_irq_routing) : List Nat :=
  natToLE 4 s.nr ++ natToLE 4 s.flags ++
    (List.map kvm_irq_routing_entry.serialize
      (KvmIrqRouting.as_slice s)).flatten

/-- Modelled from the spec: parsing of `k` consecutive 48-byte entry images;
fails when the buffer does not hold exactly `k` entries. -/
def parseEntries : Nat → List Nat → Option (List kvm_irq_routing_entry)
  | 0, bs => if bs.isEmpty then some [] else none
  | k + 1, bs =>
    match kvm_irq_routing_entry.deserialize (bs.take 48) with
    | none => none
    | some e => Option.map (fun l => e :: l) (parseEntries k (bs.drop 48))

/-- Modelled from the spec: deserialization of the FAM container reads the
internal count field `nr` from the header and validates it against the
supplied buffer (spec 4.3: a format error "when internal length fields are
inconsistent with the supplied buffer"); on any mismatch the result is
`none` and no partial structure is produced. -/
def kvm_irq_routing.deserialize (bs : List Nat) : Option kvm_irq_routing :=
  if bs.length < 8 then none
  else
    match parseEntries (leToNat (bs.take 4)) (bs.drop 8) with
    | none => none
    | some es =>
      some { nr := leToNat (bs.take 4),
             flags := leToNat ((bs.drop 4).take 4), entries := es }

/-- A buffer that does not hold exactly `k` entry images fails to parse. -/
theorem parseEntries_none_of_length (k : Nat) (bs : List Nat)
    (h : bs.length ≠ 48 * k) : parseEntries k bs = none := by
  induction k generalizing bs with
  | zero =>
    cases bs with
    | nil => simp at h
    | cons b tl => rfl
  | succ k ih =>
    unfold parseEntries
    by_cases hlen : 48 ≤ bs.length
    · have ht : (bs.take 48).length = 48 := by
        simp only [List.length_take]
        omega
      have hrest : (bs.drop 48).length ≠ 48 * k := by
        simp only [List.length_drop]
        omega
      simp [kvm_irq_routing_entry.deserialize, ht, ih (bs.drop 48) hrest]
    · simp [kvm_irq_routing_entry.deserialize, hlen]

/- ## Claim C8 -/

/-- C8: deserialization fails with a format error whenever the input length
mismatches the expected structure size (16 bytes for `kvm_one_reg`, 48 for
`kvm_irq_routing_entry`), or, for the FAM container, whenever the internal
count field is inconsistent with the supplied buffer (the expected size is
8 + 48 * nr with nr read from the buffer itself); on every failure the
result is `none` -- no partial structure -- while a buffer consistent with
its internal count deserializes successfully. -/
theorem serde_wrong_length_fails (bs cs ds : List Nat)
    (hb : bs.length ≠ 16) (hc : cs.length ≠ 48)
    (hd : ds.length ≠ 8 + 48 * leToNat (ds.take 4)) :
    kvm_one_reg.deserialize bs = none ∧
    kvm_irq_routing_entry.deserialize cs = none ∧
    kvm_irq_routing.deserialize ds = none ∧
    kvm_irq_routing.deserialize
        (kvm_irq_routing.serialize
          { nr := 1, flags := 5,
            entries := [kvm_irq_routing_entry.zeroed] }) =
      some { nr := 1, flags := 5,
             entries := [kvm_irq_routing_entry.zeroed] } := by
  refine ⟨?_, ?_, ?_, ?_⟩
  · unfold kvm_one_reg.deserialize
    exact if_neg hb
  · unfold kvm_irq_routing_entry.deserialize
    exact if_neg hc
  · unfold kvm_irq_routing.deserialize
    by_cases h8 : ds.length < 8
    · simp [h8]
    · have hp : parseEntries (leToNat (ds.take 4)) (ds.drop 8) = none := by
        apply parseEntries_none_of_length
        simp only [List.length_drop]
        omega
      simp [h8, hp]
  · decide

/-- Witness for C8: a 3-byte truncated input for each fixed-size structure,
and a 56-byte container buffer whose internal count field claims 2 entries
(104 expected bytes) while only one entry's worth of bytes is supplied. -/
theorem serde_wrong_length_fails_witness :
    kvm_one_reg.deserialize [0, 1, 2] = none ∧
    kvm_irq_routing_entry.deserialize [0, 1, 2] = none ∧
    kvm_irq_routing.deserialize
        ([2, 0, 0, 0, 0, 0, 0, 0] ++ List.replicate 48 0) = none ∧
    kvm_irq_routing.deserialize
        (kvm_irq_routing.serialize
          { nr := 1, flags := 5,
            entries := [kvm_irq_routing_entry.zeroed] }) =
      some { nr := 1, flags := 5,
             entries := [kvm_irq_routing_entry.zeroed] } :=
  serde_wrong_length_fails [0, 1, 2] [0, 1, 2]
    ([2, 0, 0, 0, 0, 0, 0, 0] ++ List.replicate 48 0)
    (by decide) (by decide) (by decide)
